import Mathlib

/-!
Shallow embedding of `src/server.py` (a single-user OAuth-backed Google
Drive MCP gateway) and proofs about its OAuth token lifecycle, request
router, and tool surface.

Modelling conventions:
- Python `os.getenv` results are `Option String`; Python truthiness of a
  possibly-`None` string (`if not x`) is `truthyStr`.
- The parsed JSON body of a token response is modelled as a flat
  association list of string fields (`Json`); Python truthiness of the
  possibly-`None` stored dict is `truthyJson` (an empty dict is falsy).
- Network collaborators (the token endpoint POST, the Drive files().list
  call) are oracles passed as function arguments; an exception thrown by
  the Drive client is the `Except.error` branch of `DriveOutcome`, and a
  FastAPI `HTTPException` is the `Except.error` branch carrying an
  `HTTPError` record.
-/

namespace GDriveMCP

/-- A parsed JSON object with string fields, as stored in `stored_token`. -/
abbrev Json := List (String × String)

/-- Dict lookup, as `stored_token.get(key)` in Python. -/
def jsonGet (j : Json) (k : String) : Option String :=
  (j.find? (fun p => p.fst == k)).map (fun p => p.snd)

/-- Python truthiness of an optional string: `None` and `""` are falsy. -/
def truthyStr : Option String → Bool
  | none => false
  | some s => !(s == "")

/-- Python truthiness of the optional stored token dict: `None` and `{}` are falsy. -/
def truthyJson : Option Json → Bool
  | none => false
  | some j => !j.isEmpty

/-- Process-wide configuration read from the environment at startup
(`CLIENT_ID`, `CLIENT_SECRET`, `REDIRECT_URI`, `OWNER_EMAIL`). -/
structure Config where
  clientId : Option String
  clientSecret : Option String
  redirectUri : Option String
  ownerEmail : String
deriving DecidableEq

/-- The fixed scope list `SCOPES` of server.py. -/
def SCOPES : List String := ["https://www.googleapis.com/auth/drive.metadata.readonly"]

/-- A raised FastAPI `HTTPException` with its status code and detail string. -/
structure HTTPError where
  statusCode : Nat
  detail : String
deriving DecidableEq

/-! ### The request router (`MCPRouter.dispatch`) -/

/-- The two dispatch targets of the middleware. -/
inductive Surface
  | PLAIN_SURFACE
  | TOOL_SURFACE
deriving DecidableEq

/-- The exact path strings let through to the plain HTTP app by
`MCPRouter.dispatch` (server.py line 172). -/
def ALLOW_LIST : List String := ["/auth", "/oauth2callback", "/health"]

/-- RequestRouter.classify: `MCPRouter.dispatch` forwards allow-listed
paths to the FastAPI handlers and every other path to the MCP app. -/
def classify (path : String) : Surface :=
  if ALLOW_LIST.contains path then Surface.PLAIN_SURFACE else Surface.TOOL_SURFACE

/-! ### URL construction (`start_auth`, server.py lines 120-134) -/

/-- Uppercase hexadecimal digit for `n < 16`, as used by `urllib.parse.quote`. -/
def hexDigit (n : Nat) : Char :=
  Char.ofNat (if n < 10 then 48 + n else 55 + n)

/-- Percent-encoding of one byte, `"%XY"` with uppercase hex digits. -/
def percentByte (b : UInt8) : String :=
  "%" ++ String.singleton (hexDigit (b.toNat / 16)) ++ String.singleton (hexDigit (b.toNat % 16))

/-- The characters `urllib.parse.quote` never encodes (ASCII letters, digits, `_.-~`). -/
def alwaysSafe (c : Char) : Bool :=
  c.isAlpha || c.isDigit || c == '_' || c == '.' || c == '-' || c == '~'

/-- One character under `urllib.parse.quote_plus` with empty `safe`:
space becomes `+`, safe characters pass through, everything else is
percent-encoded per UTF-8 byte. -/
def quotePlusChar (c : Char) : String :=
  if c == ' ' then "+"
  else if alwaysSafe c then String.singleton c
  else String.join (((String.singleton c).toUTF8.toList).map percentByte)

/-- `urllib.parse.quote_plus` over a whole string. -/
def quotePlus (s : String) : String :=
  String.join (s.data.map quotePlusChar)

/-- `urllib.parse.urlencode`: `key=quote_plus(value)` pairs joined by `&`,
in insertion order of the dict literal. -/
def urlencode : List (String × String) → String
  | [] => ""
  | [p] => quotePlus p.fst ++ "=" ++ quotePlus p.snd
  | p :: ps => quotePlus p.fst ++ "=" ++ quotePlus p.snd ++ "&" ++ urlencode ps

/-- The fixed provider authorization endpoint of server.py line 134. -/
def AUTH_ENDPOINT : String := "https://accounts.google.com/o/oauth2/v2/auth"

/-- Success body of `GET /auth`. -/
structure AuthUrlResponse where
  auth_url : String
deriving DecidableEq

/-- The parameter dict passed to `urlencode` by `start_auth` (lines 126-133). -/
def authParams (cfg : Config) : List (String × String) :=
  [("client_id", cfg.clientId.getD ""),
   ("redirect_uri", cfg.redirectUri.getD ""),
   ("response_type", "code"),
   ("scope", String.intercalate " " SCOPES),
   ("access_type", "offline"),
   ("prompt", "consent")]

/-- `GET /auth` (server.py lines 120-134): 500 if any OAuth environment
variable is falsy, otherwise the provider authorization URL. -/
def start_auth (cfg : Config) : Except HTTPError AuthUrlResponse :=
  if !truthyStr cfg.clientId || !truthyStr cfg.clientSecret || !truthyStr cfg.redirectUri then
    Except.error ⟨500, "OAuth environment variables missing"⟩
  else
    Except.ok ⟨AUTH_ENDPOINT ++ "?" ++ urlencode (authParams cfg)⟩

/-! ### Token exchange (`oauth_callback`, server.py lines 136-155) -/

/-- The form body POSTed to the token endpoint (lines 143-149). -/
structure TokenRequest where
  code : String
  client_id : Option String
  client_secret : Option String
  redirect_uri : Option String
  grant_type : String
deriving DecidableEq

/-- The response of the provider to the token POST: HTTP status, raw text
body, and the parse `token_resp.json()` of that body. -/
structure TokenResponse where
  status_code : Nat
  text : String
  json : Json
deriving DecidableEq

/-- Success body of `GET /oauth2callback` (line 155). -/
structure CallbackSuccess where
  status : String
  owner : String
deriving DecidableEq

/-- The token request built by `oauth_callback` from the configuration
and the received code. -/
def tokenRequest (cfg : Config) (code : String) : TokenRequest :=
  ⟨code, cfg.clientId, cfg.clientSecret, cfg.redirectUri, "authorization_code"⟩

/-- `GET /oauth2callback` (lines 136-155). `code` is
`request.query_params.get("code")`; `post` is the `requests.post` network
collaborator; `store` is the global `stored_token` before the call. The
result pairs the HTTP outcome with `stored_token` after the call. -/
def oauth_callback (cfg : Config) (code : Option String)
    (post : TokenRequest → TokenResponse) (store : Option Json) :
    Except HTTPError CallbackSuccess × Option Json :=
  if !truthyStr code then
    (Except.error ⟨400, "Missing code"⟩, store)
  else
    let resp := post (tokenRequest cfg (code.getD ""))
    if resp.status_code ≠ 200 then
      (Except.error ⟨500, "Token exchange failed: " ++ resp.text⟩, store)
    else
      (Except.ok ⟨"connected", cfg.ownerEmail⟩, some resp.json)

/-! ### MCP tools (`list_drive_files`, `search_drive_files`, lines 25-105) -/

/-- Behaviour of one invocation of the external Drive collaborator:
either the returned file list, or the message of the exception it raised. -/
abbrev DriveOutcome := Except String (List String)

/-- Result dict of `list_drive_files`. -/
inductive ListResult
  | error (msg : String)
  | success (count : Nat) (files : List String)
deriving DecidableEq

/-- Result dict of `search_drive_files` (echoes the query, line 100). -/
inductive SearchResult
  | error (msg : String)
  | success (query : String) (count : Nat) (files : List String)
deriving DecidableEq

/-- The not-authenticated message of lines 33 and 74. -/
def NOT_AUTH_MSG : String := "No Google account connected. Please authenticate first at /auth"

/-- `list_drive_files` (lines 25-63). `drive` maps the delegated
`pageSize` to the outcome of the collaborator; the whole body after the auth
check runs inside `try`, so an exception becomes an error dict. -/
def list_drive_files (store : Option Json) (max_results : Int)
    (drive : Int → DriveOutcome) : ListResult :=
  if !truthyJson store then
    ListResult.error NOT_AUTH_MSG
  else
    match drive (min max_results 100) with
    | Except.ok files => ListResult.success files.length files
    | Except.error e => ListResult.error e

/-- The single-quote character, escaped in Drive queries. -/
def squote : Char := Char.ofNat 39

/-- The replace call of line 90: each single quote of the query becomes
backslash followed by single quote. -/
def escapeQuery (q : String) : String :=
  String.join (q.data.map (fun c =>
    if c == squote then "\\" ++ String.singleton squote else String.singleton c))

/-- The Drive query string of line 92: `name contains` around the
escaped query in single quotes. -/
def driveNameQuery (q : String) : String :=
  "name contains " ++ String.singleton squote ++ escapeQuery q ++ String.singleton squote

/-- `search_drive_files` (lines 65-105). `drive` maps the delegated
`(q, pageSize)` pair to the outcome of the collaborator. -/
def search_drive_files (store : Option Json) (query : String) (max_results : Int)
    (drive : String → Int → DriveOutcome) : SearchResult :=
  if !truthyJson store then
    SearchResult.error NOT_AUTH_MSG
  else
    match drive (driveNameQuery query) (min max_results 100) with
    | Except.ok files => SearchResult.success query files.length files
    | Except.error e => SearchResult.error e

/-! ### Process traces over the single `stored_token` slot -/

/-- One observable operation of the process, with the external
behaviour of the collaborator for that operation recorded in the event. -/
inductive Event
  | callback (code : Option String) (resp : TokenResponse)
  | listFiles (max_results : Int) (outcome : DriveOutcome)
  | searchFiles (query : String) (max_results : Int) (outcome : DriveOutcome)

/-- Effect of one event on `stored_token`: only a callback writes it
(line 154); tool calls and failed callbacks leave it unchanged. -/
def step (cfg : Config) (store : Option Json) : Event → Option Json
  | Event.callback code resp => (oauth_callback cfg code (fun _ => resp) store).snd
  | Event.listFiles _ _ => store
  | Event.searchFiles _ _ _ => store

/-- `stored_token` after running a sequence of operations from `store`. -/
def runTrace (cfg : Config) (store : Option Json) : List Event → Option Json
  | [] => store
  | e :: tr => runTrace cfg (step cfg store e) tr

/-- The credential an event successfully stores, if any: a callback with
a truthy code whose provider response has status 200. -/
def extractSuccess : Event → Option Json
  | Event.callback code resp =>
      if truthyStr code && resp.status_code == 200 then some resp.json else none
  | _ => none

/-- Modelled from the spec: the credential of the most recent successful
exchange in the trace, absent when no exchange succeeded. Later events
take precedence. -/
def lastSuccessfulCredential : List Event → Option Json
  | [] => none
  | e :: tr =>
      match lastSuccessfulCredential tr with
      | some j => some j
      | none => extractSuccess e

/-- The credential invariant of the spec: the slot is absent, or holds a
credential whose `access_token` field is present and non-empty. -/
def goodState : Option Json → Prop
  | none => True
  | some j => ∃ t, jsonGet j "access_token" = some t ∧ t ≠ ""

/-- Substring containment of strings. -/
def strContains (s pat : String) : Prop :=
  ∃ u v : String, s = u ++ (pat ++ v)

/-- A concrete configuration used by counterexamples. -/
def sampleConfig : Config := ⟨some "abc", some "xyz", some "https://x/cb", "owner@example.com"⟩

/-! ### Helper lemmas -/

lemma strContains_iff_data (s pat : String) : strContains s pat ↔ pat.data <:+: s.data := by
  constructor
  · rintro ⟨u, v, rfl⟩
    exact ⟨u.data, v.data, by simp [String.data_append, List.append_assoc]⟩
  · rintro ⟨u, v, h⟩
    refine ⟨⟨u⟩, ⟨v⟩, ?_⟩
    apply String.ext
    simp [String.data_append, ← h, List.append_assoc]

lemma strContains_left {s pat : String} (t : String) (h : strContains s pat) :
    strContains (s ++ t) pat := by
  obtain ⟨u, v, rfl⟩ := h
  exact ⟨u, v ++ t, by simp [String.append_assoc]⟩

lemma strContains_right {t pat : String} (s : String) (h : strContains t pat) :
    strContains (s ++ t) pat := by
  obtain ⟨u, v, rfl⟩ := h
  exact ⟨s ++ u, v, by simp [String.append_assoc]⟩

lemma strContains_head (pat v : String) : strContains (pat ++ v) pat :=
  ⟨"", v, by rw [String.empty_append]⟩

lemma strContains_refl (pat : String) : strContains pat pat := by
  have h := strContains_head pat ""
  simpa using h

lemma mem_allow_list (p : String) :
    ALLOW_LIST.contains p = true ↔ p = "/auth" ∨ p = "/oauth2callback" ∨ p = "/health" := by
  simp [ALLOW_LIST]

/-! ### C1: request-router classification -/

/-- C1 counterexample: the home/status root path `/` is not in the
allow-list of the middleware, so `classify` sends it to the tool surface, not
the plain surface as the allow-list asserted by the claim (which includes the
home/status root) requires. -/
theorem classify_root_counterexample :
    classify "/" = Surface.TOOL_SURFACE ∧ classify "/" ≠ Surface.PLAIN_SURFACE := by
  constructor <;> decide

/-- C1 (amended): `classify` returns `PLAIN_SURFACE` exactly on the
three allow-listed paths `/auth`, `/oauth2callback`, `/health`, and
`TOOL_SURFACE` on every other path string; the home/status root is not
allow-listed. -/
theorem classify_allowlist_spec (p : String) :
    (classify p = Surface.PLAIN_SURFACE ↔
      (p = "/auth" ∨ p = "/oauth2callback" ∨ p = "/health")) ∧
    (classify p = Surface.TOOL_SURFACE ↔
      ¬(p = "/auth" ∨ p = "/oauth2callback" ∨ p = "/health")) := by
  by_cases h : ALLOW_LIST.contains p = true
  · have hm := (mem_allow_list p).1 h
    unfold classify
    rw [if_pos h]
    simp [hm]
  · have hm : ¬(p = "/auth" ∨ p = "/oauth2callback" ∨ p = "/health") :=
      fun hd => h ((mem_allow_list p).2 hd)
    unfold classify
    rw [if_neg h]
    simp [hm]

lemma append_ne_of_head (a t b : String) (ha : a.data ≠ [])
    (h : a.data.head? ≠ b.data.head?) : a ++ t ≠ b := by
  intro heq
  apply h
  rw [← heq, String.data_append]
  cases hd : a.data with
  | nil => exact absurd hd ha
  | cons c cs => simp [hd]

/-! ### C8: missing or empty authorization code -/

/-- C8: a callback whose code is absent or empty fails with HTTP 400
"Missing code" and leaves the store unchanged; the token-endpoint oracle
is universally quantified and absent from the result, so no network call
is made. -/
theorem missing_code_spec (cfg : Config) (code : Option String)
    (post : TokenRequest → TokenResponse) (store : Option Json)
    (h : truthyStr code = false) :
    oauth_callback cfg code post store = (Except.error ⟨400, "Missing code"⟩, store) := by
  simp [oauth_callback, h]

/-- C8 witness: the empty code fails with 400 for a concrete stub and store. -/
theorem missing_code_spec_witness :
    truthyStr (some "") = false ∧
    oauth_callback sampleConfig (some "") (fun _ => ⟨200, "", []⟩) none =
      (Except.error ⟨400, "Missing code"⟩, none) :=
  ⟨by decide, missing_code_spec sampleConfig (some "") (fun _ => ⟨200, "", []⟩) none (by decide)⟩

/-! ### C2: failed token exchange -/

/-- C2 counterexample: against a provider stub answering status 400 with
body "invalid_grant", the callback raises an error of HTTP status 500
whose detail carries the body but not the provider status — contrary
to the claim, the error does not carry the provider status 400 in any
component. -/
theorem token_exchange_status_counterexample :
    (oauth_callback sampleConfig (some "badcode") (fun _ => ⟨400, "invalid_grant", []⟩) none).fst
      = Except.error ⟨500, "Token exchange failed: invalid_grant"⟩ ∧
    (500 : Nat) ≠ 400 ∧
    ¬ strContains "Token exchange failed: invalid_grant" "400" := by
  refine ⟨by rfl, by decide, ?_⟩
  rw [strContains_iff_data]
  decide

/-- C2 (amended): for every provider response whose status is not 200
(in particular every non-success status), the callback fails with an
HTTP 500 error whose detail is "Token exchange failed: " followed by the
raw response body of the provider — the error carries the body but not the
status code of the provider — and the stored credential is exactly what it
was before the call. -/
theorem token_exchange_error_spec (cfg : Config) (code : Option String)
    (post : TokenRequest → TokenResponse) (store : Option Json)
    (hc : truthyStr code = true)
    (hs : (post (tokenRequest cfg (code.getD ""))).status_code ≠ 200) :
    oauth_callback cfg code post store =
      (Except.error
        ⟨500, "Token exchange failed: " ++ (post (tokenRequest cfg (code.getD ""))).text⟩,
       store) ∧
    strContains ("Token exchange failed: " ++ (post (tokenRequest cfg (code.getD ""))).text)
      (post (tokenRequest cfg (code.getD ""))).text :=
  ⟨by simp [oauth_callback, hc, hs], strContains_right _ (strContains_refl _)⟩

/-- C2 witness: a concrete 403 response with body "denied" fails with
500 and the body in the detail, leaving a concrete prior credential
untouched. -/
theorem token_exchange_error_spec_witness :
    truthyStr (some "badcode") = true ∧
    ((fun (_ : TokenRequest) => (⟨403, "denied", []⟩ : TokenResponse))
        (tokenRequest sampleConfig ((some "badcode").getD ""))).status_code ≠ 200 ∧
    (oauth_callback sampleConfig (some "badcode")
        (fun _ => ⟨403, "denied", []⟩) (some [("access_token", "old")]) =
      (Except.error ⟨500, "Token exchange failed: denied"⟩, some [("access_token", "old")]) ∧
     strContains "Token exchange failed: denied" "denied") :=
  ⟨by decide, by decide,
   token_exchange_error_spec sampleConfig (some "badcode") (fun _ => ⟨403, "denied", []⟩)
     (some [("access_token", "old")]) (by decide) (by decide)⟩

lemma runTrace_eq_last (cfg : Config) (tr : List Event) (s : Option Json) :
    runTrace cfg s tr =
      (match lastSuccessfulCredential tr with
       | some j => some j
       | none => s) := by
  induction tr generalizing s with
  | nil => rfl
  | cons e tr ih =>
    rw [runTrace, lastSuccessfulCredential, ih]
    cases hl : lastSuccessfulCredential tr with
    | some j => rfl
    | none =>
      cases e with
      | callback code resp =>
        cases hc : truthyStr code with
        | false => simp [step, oauth_callback, extractSuccess, hc]
        | true =>
          by_cases hs : resp.status_code = 200
          · simp [step, oauth_callback, extractSuccess, hc, hs]
          · simp [step, oauth_callback, extractSuccess, hc, hs]
      | listFiles m o => rfl
      | searchFiles q m o => rfl

/-! ### C5: successful token exchange and the credential slot -/

/-- C5: a 200 provider response makes the callback store the parsed JSON
body wholesale and return the success marker carrying the configured
owner identity; over every operation sequence, the stored credential
equals the one of the most recent successful exchange (and is absent
when no exchange has succeeded). -/
theorem exchange_success_spec :
    (∀ (cfg : Config) (code : Option String) (post : TokenRequest → TokenResponse)
        (store : Option Json),
      truthyStr code = true →
      (post (tokenRequest cfg (code.getD ""))).status_code = 200 →
      oauth_callback cfg code post store =
        (Except.ok ⟨"connected", cfg.ownerEmail⟩,
         some (post (tokenRequest cfg (code.getD ""))).json)) ∧
    (∀ (cfg : Config) (tr : List Event),
      runTrace cfg none tr = lastSuccessfulCredential tr) := by
  constructor
  · intro cfg code post store hc hs
    simp [oauth_callback, hc, hs]
  · intro cfg tr
    rw [runTrace_eq_last]
    cases lastSuccessfulCredential tr <;> rfl

/-- C5 witness: a concrete 200 exchange overwrites a concrete prior
credential with the freshly parsed body and returns the owner marker. -/
theorem exchange_success_spec_witness :
    truthyStr (some "goodcode") = true ∧
    ((fun (_ : TokenRequest) =>
        (⟨200, "", [("access_token", "t1"), ("refresh_token", "r1")]⟩ : TokenResponse))
      (tokenRequest sampleConfig ((some "goodcode").getD ""))).status_code = 200 ∧
    oauth_callback sampleConfig (some "goodcode")
        (fun _ => ⟨200, "", [("access_token", "t1"), ("refresh_token", "r1")]⟩)
        (some [("access_token", "old")]) =
      (Except.ok ⟨"connected", "owner@example.com"⟩,
       some [("access_token", "t1"), ("refresh_token", "r1")]) :=
  ⟨by decide, by decide,
   exchange_success_spec.1 sampleConfig (some "goodcode")
     (fun _ => ⟨200, "", [("access_token", "t1"), ("refresh_token", "r1")]⟩)
     (some [("access_token", "old")]) (by decide) (by decide)⟩

/-! ### C10: the callback performs no configuration check -/

/-- C10: the callback never checks the configuration: with a truthy code
its outcome is determined by the single POST of the token request built
from whatever configuration there is (also one with all fields unset),
no outcome ever carries the start-auth configuration error, and with an
all-unset configuration the POST still happens (the record the stub keeps of the
request it received is stored). -/
theorem callback_no_config_check :
    (∀ (cfg : Config) (code : Option String) (p₁ p₂ : TokenRequest → TokenResponse)
        (store : Option Json),
      truthyStr code = true →
      p₁ (tokenRequest cfg (code.getD "")) = p₂ (tokenRequest cfg (code.getD "")) →
      oauth_callback cfg code p₁ store = oauth_callback cfg code p₂ store) ∧
    (∀ (cfg : Config) (code : Option String) (post : TokenRequest → TokenResponse)
        (store : Option Json) (e : HTTPError),
      (oauth_callback cfg code post store).fst = Except.error e →
      e.detail ≠ "OAuth environment variables missing") ∧
    (oauth_callback ⟨none, none, none, "owner@example.com"⟩ (some "c")
        (fun r => ⟨200, "", [("client_id_sent", r.client_id.getD "unset")]⟩) none =
      (Except.ok ⟨"connected", "owner@example.com"⟩,
       some [("client_id_sent", "unset")])) := by
  refine ⟨?_, ?_, by rfl⟩
  · intro cfg code p₁ p₂ store hc hpost
    simp [oauth_callback, hc, hpost]
  · intro cfg code post store e h
    by_cases hc : truthyStr code = true
    · by_cases hs : (post (tokenRequest cfg (code.getD ""))).status_code = 200
      · simp [oauth_callback, hc, hs] at h
      · simp [oauth_callback, hc, hs] at h
        rw [← h]
        exact append_ne_of_head _ _ _ (by decide) (by decide)
    · rw [Bool.not_eq_true] at hc
      simp [oauth_callback, hc] at h
      rw [← h]
      decide

/-- C10 witness: with a fully unset configuration and code "c", the
outcome of the callback is the one POST response, here a 200 stub. -/
theorem callback_no_config_check_witness :
    truthyStr (some "c") = true ∧
    oauth_callback ⟨none, none, none, "o"⟩ (some "c") (fun _ => ⟨200, "", []⟩) none =
      oauth_callback ⟨none, none, none, "o"⟩ (some "c") (fun _ => ⟨200, "", []⟩) none :=
  ⟨by decide,
   callback_no_config_check.1 ⟨none, none, none, "o"⟩ (some "c")
     (fun _ => ⟨200, "", []⟩) (fun _ => ⟨200, "", []⟩) none (by decide) rfl⟩

/-! ### C3: the credential-slot invariant -/

/-- A provider response behaves well for the invariant: whenever its
status is 200, its parsed body has a non-empty `access_token` field. -/
def goodEvent : Event → Prop
  | Event.callback _ resp =>
      resp.status_code = 200 →
        ∃ t, jsonGet resp.json "access_token" = some t ∧ t ≠ ""
  | _ => True

lemma step_good (cfg : Config) (s : Option Json) (e : Event)
    (hs : goodState s) (he : goodEvent e) : goodState (step cfg s e) := by
  cases e with
  | callback code resp =>
    cases hc : truthyStr code with
    | false => simpa [step, oauth_callback, hc] using hs
    | true =>
      by_cases hst : resp.status_code = 200
      · have hw := he hst
        simpa [step, oauth_callback, hc, hst, goodState] using hw
      · simpa [step, oauth_callback, hc, hst] using hs
  | listFiles m o => exact hs
  | searchFiles q m o => exact hs

/-- C3 counterexample: a single exchange whose 200 response body parses
to an `access_token` field holding the empty string leaves the slot
present with an empty access token — a reachable partially-initialized
credential state, violating the claimed invariant. -/
theorem credential_invariant_counterexample :
    runTrace sampleConfig none
        [Event.callback (some "c") ⟨200, "", [("access_token", "")]⟩] =
      some [("access_token", "")] ∧
    ¬ goodState (some [("access_token", "")]) := by
  refine ⟨by rfl, ?_⟩
  rintro ⟨t, ht, hne⟩
  simp [jsonGet] at ht
  exact hne ht.symm

/-- C3 (amended): provided every 200 provider response occurring in the
trace parses to a body with a non-empty `access_token` field, every
reachable state of the credential slot is either fully absent or fully
present with a non-empty access token; the code itself never validates
the stored body. -/
theorem credential_invariant (cfg : Config) (tr : List Event)
    (h : ∀ e ∈ tr, goodEvent e) :
    goodState (runTrace cfg none tr) := by
  have H : ∀ (tr : List Event), (∀ e ∈ tr, goodEvent e) →
      ∀ s, goodState s → goodState (runTrace cfg s tr) := by
    intro tr
    induction tr with
    | nil => exact fun _ s hs => hs
    | cons e tr ih =>
      intro hall s hs
      rw [runTrace]
      exact ih (fun x hx => hall x (List.mem_cons_of_mem _ hx)) _
        (step_good cfg s e hs (hall e (List.mem_cons_self _ _)))
  exact H tr h none (by simp [goodState])

/-- C3 witness: a well-formed 200 exchange yields a good state. -/
theorem credential_invariant_witness :
    (∀ e ∈ [Event.callback (some "c")
        (⟨200, "", [("access_token", "t1")]⟩ : TokenResponse)], goodEvent e) ∧
    goodState (runTrace sampleConfig none
      [Event.callback (some "c") ⟨200, "", [("access_token", "t1")]⟩]) := by
  have h : ∀ e ∈ [Event.callback (some "c")
      (⟨200, "", [("access_token", "t1")]⟩ : TokenResponse)], goodEvent e := by
    intro e he
    simp at he
    subst he
    intro _
    exact ⟨"t1", rfl, by decide⟩
  exact ⟨h, credential_invariant sampleConfig _ h⟩

/-! ### C4: building the authorization URL -/

lemma strContains_head2 (a b v : String) : strContains (a ++ (b ++ v)) (a ++ b) := by
  rw [← String.append_assoc]
  exact strContains_head _ _

lemma urlencode_authParams (cid ru : String) :
    urlencode [("client_id", cid), ("redirect_uri", ru), ("response_type", "code"),
        ("scope", String.intercalate " " SCOPES), ("access_type", "offline"),
        ("prompt", "consent")] =
      "client_id=" ++ (quotePlus cid ++ ("&" ++ ("redirect_uri=" ++ (quotePlus ru ++
        ("&" ++ ("response_type=code" ++ ("&" ++ ("scope=" ++
          (quotePlus (String.intercalate " " SCOPES) ++ ("&" ++ ("access_type=offline" ++
            ("&" ++ "prompt=consent")))))))))))) := by
  have h1 : quotePlus "client_id" = "client_id" := by decide
  have h2 : quotePlus "redirect_uri" = "redirect_uri" := by decide
  have h3 : quotePlus "response_type" = "response_type" := by decide
  have h4 : quotePlus "code" = "code" := by decide
  have h5 : quotePlus "scope" = "scope" := by decide
  have h6 : quotePlus "access_type" = "access_type" := by decide
  have h7 : quotePlus "offline" = "offline" := by decide
  have h8 : quotePlus "prompt" = "prompt" := by decide
  have h9 : quotePlus "consent" = "consent" := by decide
  have s1 : ("client_id=" : String) = "client_id" ++ "=" := by decide
  have s2 : ("redirect_uri=" : String) = "redirect_uri" ++ "=" := by decide
  have s3 : ("response_type=code" : String) = "response_type" ++ ("=" ++ "code") := by decide
  have s4 : ("scope=" : String) = "scope" ++ "=" := by decide
  have s5 : ("access_type=offline" : String) = "access_type" ++ ("=" ++ "offline") := by decide
  have s6 : ("prompt=consent" : String) = "prompt" ++ ("=" ++ "consent") := by decide
  rw [s1, s2, s3, s4, s5, s6]
  simp only [urlencode, h1, h2, h3, h4, h5, h6, h7, h8, h9, String.append_assoc]

/-- C4: `start_auth` fails with the configuration error exactly when at
least one of client id, client secret, redirect URI is unset or empty;
otherwise it succeeds with a URL rooted at the fixed provider endpoint
whose query string carries the URL-encoded client_id and redirect_uri,
`response_type=code`, the URL-encoded space-joined scope list,
`access_type=offline` and `prompt=consent`; the construction is a pure
function of the configuration, with no network collaborator involved. -/
theorem start_auth_spec (cfg : Config) :
    ((∃ e : HTTPError, start_auth cfg = Except.error e) ↔
      (truthyStr cfg.clientId = false ∨ truthyStr cfg.clientSecret = false ∨
       truthyStr cfg.redirectUri = false)) ∧
    ((∃ e : HTTPError, start_auth cfg = Except.error e) →
      start_auth cfg = Except.error ⟨500, "OAuth environment variables missing"⟩) ∧
    (truthyStr cfg.clientId = true → truthyStr cfg.clientSecret = true →
     truthyStr cfg.redirectUri = true →
      ∃ rest : String,
        start_auth cfg = Except.ok ⟨AUTH_ENDPOINT ++ "?" ++ rest⟩ ∧
        strContains rest ("client_id=" ++ quotePlus (cfg.clientId.getD "")) ∧
        strContains rest ("redirect_uri=" ++ quotePlus (cfg.redirectUri.getD "")) ∧
        strContains rest "response_type=code" ∧
        strContains rest ("scope=" ++ quotePlus (String.intercalate " " SCOPES)) ∧
        strContains rest "access_type=offline" ∧
        strContains rest "prompt=consent") := by
  have hiff : (!truthyStr cfg.clientId || !truthyStr cfg.clientSecret ||
      !truthyStr cfg.redirectUri) = true ↔
      (truthyStr cfg.clientId = false ∨ truthyStr cfg.clientSecret = false ∨
       truthyStr cfg.redirectUri = false) := by
    simp [or_assoc]
  refine ⟨?_, ?_, ?_⟩
  · constructor
    · rintro ⟨e, he⟩
      by_cases h : (!truthyStr cfg.clientId || !truthyStr cfg.clientSecret ||
          !truthyStr cfg.redirectUri) = true
      · exact hiff.1 h
      · rw [start_auth, if_neg h] at he
        cases he
    · intro hd
      exact ⟨⟨500, "OAuth environment variables missing"⟩,
        by rw [start_auth, if_pos (hiff.2 hd)]⟩
  · rintro ⟨e, he⟩
    by_cases h : (!truthyStr cfg.clientId || !truthyStr cfg.clientSecret ||
        !truthyStr cfg.redirectUri) = true
    · rw [start_auth, if_pos h]
    · rw [start_auth, if_neg h] at he
      cases he
  · intro ha hb hc
    have h : ¬((!truthyStr cfg.clientId || !truthyStr cfg.clientSecret ||
        !truthyStr cfg.redirectUri) = true) := by
      simp [ha, hb, hc]
    refine ⟨urlencode (authParams cfg), by rw [start_auth, if_neg h], ?_, ?_, ?_, ?_, ?_, ?_⟩ <;>
      rw [show urlencode (authParams cfg) =
            urlencode [("client_id", cfg.clientId.getD ""),
              ("redirect_uri", cfg.redirectUri.getD ""), ("response_type", "code"),
              ("scope", String.intercalate " " SCOPES), ("access_type", "offline"),
              ("prompt", "consent")] from rfl,
          urlencode_authParams]
    · exact strContains_head2 _ _ _
    · exact strContains_right _ (strContains_right _ (strContains_right _
        (strContains_head2 _ _ _)))
    · exact strContains_right _ (strContains_right _ (strContains_right _
        (strContains_right _ (strContains_right _ (strContains_right _
        (strContains_head _ _))))))
    · exact strContains_right _ (strContains_right _ (strContains_right _
        (strContains_right _ (strContains_right _ (strContains_right _
        (strContains_right _ (strContains_right _ (strContains_head2 _ _ _))))))))
    · exact strContains_right _ (strContains_right _ (strContains_right _
        (strContains_right _ (strContains_right _ (strContains_right _
        (strContains_right _ (strContains_right _ (strContains_right _
        (strContains_right _ (strContains_right _ (strContains_head _ _)))))))))))
    · exact strContains_right _ (strContains_right _ (strContains_right _
        (strContains_right _ (strContains_right _ (strContains_right _
        (strContains_right _ (strContains_right _ (strContains_right _
        (strContains_right _ (strContains_right _ (strContains_right _
        (strContains_right _ (strContains_refl _)))))))))))))

/-- C4 witness: a fully configured sample succeeds and its URL carries
all six query parameters. -/
theorem start_auth_spec_witness :
    truthyStr sampleConfig.clientId = true ∧
    truthyStr sampleConfig.clientSecret = true ∧
    truthyStr sampleConfig.redirectUri = true ∧
    (∃ rest : String,
      start_auth sampleConfig = Except.ok ⟨AUTH_ENDPOINT ++ "?" ++ rest⟩ ∧
      strContains rest ("client_id=" ++ quotePlus (sampleConfig.clientId.getD "")) ∧
      strContains rest ("redirect_uri=" ++ quotePlus (sampleConfig.redirectUri.getD "")) ∧
      strContains rest "response_type=code" ∧
      strContains rest ("scope=" ++ quotePlus (String.intercalate " " SCOPES)) ∧
      strContains rest "access_type=offline" ∧
      strContains rest "prompt=consent") :=
  ⟨by decide, by decide, by decide,
   (start_auth_spec sampleConfig).2.2 (by decide) (by decide) (by decide)⟩

/-! ### C6: the page-size clamp -/

/-- C6: with a credential present, both tools invoke the Drive
collaborator at page size `min(max_results, 100)` and at nothing else —
the result is determined by the outcome of the collaborator at that one
clamped value, which never exceeds 100 — and `max_results = 500`
delegates with exactly 100. -/
theorem clamp_spec :
    (∀ (store : Option Json) (m : Int) (d₁ d₂ : Int → DriveOutcome),
      d₁ (min m 100) = d₂ (min m 100) →
      list_drive_files store m d₁ = list_drive_files store m d₂) ∧
    (∀ (store : Option Json) (q : String) (m : Int) (d₁ d₂ : String → Int → DriveOutcome),
      d₁ (driveNameQuery q) (min m 100) = d₂ (driveNameQuery q) (min m 100) →
      search_drive_files store q m d₁ = search_drive_files store q m d₂) ∧
    (∀ m : Int, min m 100 ≤ 100) ∧
    (min (500 : Int) 100 = 100) ∧
    (∀ (store : Option Json) (drive : Int → DriveOutcome),
      truthyJson store = true →
      list_drive_files store 500 drive =
        (match drive 100 with
         | Except.ok files => ListResult.success files.length files
         | Except.error e => ListResult.error e)) := by
  refine ⟨?_, ?_, fun m => min_le_right m 100, by decide, ?_⟩
  · intro store m d₁ d₂ h
    cases hs : truthyJson store with
    | false => simp [list_drive_files, hs]
    | true => simp [list_drive_files, hs, h]
  · intro store q m d₁ d₂ h
    cases hs : truthyJson store with
    | false => simp [search_drive_files, hs]
    | true => simp [search_drive_files, hs, h]
  · intro store drive hs
    have hmin : min (500 : Int) 100 = 100 := by decide
    simp [list_drive_files, hs, hmin]

/-- C6 witness: with a concrete credential and a stub collaborator,
`max_results = 500` yields the answer of the stub at page size 100. -/
theorem clamp_spec_witness :
    truthyJson (some [("access_token", "t")]) = true ∧
    list_drive_files (some [("access_token", "t")]) 500 (fun _ => Except.ok ["f1"]) =
      ListResult.success 1 ["f1"] :=
  ⟨by decide,
   (clamp_spec.2.2.2.2 (some [("access_token", "t")]) (fun _ => Except.ok ["f1"])
     (by decide)).trans rfl⟩

/-! ### C7: tool calls never propagate failures -/

/-- C7: with no stored credential (including the falsy empty dict) both
tools return the structured not-authenticated error dict rather than
raising; a collaborator exception is caught and its message returned as
an error dict; and every invocation returns a well-formed result value —
an error dict or a success dict — never an uncaught exception. -/
theorem tool_soft_fail_spec :
    (∀ (m : Int) (drive : Int → DriveOutcome) (store : Option Json),
      truthyJson store = false →
      list_drive_files store m drive = ListResult.error NOT_AUTH_MSG) ∧
    (∀ (q : String) (m : Int) (drive : String → Int → DriveOutcome) (store : Option Json),
      truthyJson store = false →
      search_drive_files store q m drive = SearchResult.error NOT_AUTH_MSG) ∧
    (∀ (store : Option Json) (m : Int) (drive : Int → DriveOutcome) (e : String),
      truthyJson store = true → drive (min m 100) = Except.error e →
      list_drive_files store m drive = ListResult.error e) ∧
    (∀ (store : Option Json) (q : String) (m : Int)
        (drive : String → Int → DriveOutcome) (e : String),
      truthyJson store = true → drive (driveNameQuery q) (min m 100) = Except.error e →
      search_drive_files store q m drive = SearchResult.error e) ∧
    (∀ (store : Option Json) (m : Int) (drive : Int → DriveOutcome),
      (∃ msg, list_drive_files store m drive = ListResult.error msg) ∨
      (∃ c fs, list_drive_files store m drive = ListResult.success c fs)) ∧
    (∀ (store : Option Json) (q : String) (m : Int) (drive : String → Int → DriveOutcome),
      (∃ msg, search_drive_files store q m drive = SearchResult.error msg) ∨
      (∃ c fs, search_drive_files store q m drive = SearchResult.success q c fs)) := by
  refine ⟨?_, ?_, ?_, ?_, ?_, ?_⟩
  · intro m drive store hs
    simp [list_drive_files, hs]
  · intro q m drive store hs
    simp [search_drive_files, hs]
  · intro store m drive e hs he
    simp [list_drive_files, hs, he]
  · intro store q m drive e hs he
    simp [search_drive_files, hs, he]
  · intro store m drive
    cases hs : truthyJson store with
    | false => exact Or.inl ⟨NOT_AUTH_MSG, by simp [list_drive_files, hs]⟩
    | true =>
      cases ho : drive (min m 100) with
      | ok files => exact Or.inr ⟨files.length, files, by simp [list_drive_files, hs, ho]⟩
      | error e => exact Or.inl ⟨e, by simp [list_drive_files, hs, ho]⟩
  · intro store q m drive
    cases hs : truthyJson store with
    | false => exact Or.inl ⟨NOT_AUTH_MSG, by simp [search_drive_files, hs]⟩
    | true =>
      cases ho : drive (driveNameQuery q) (min m 100) with
      | ok files => exact Or.inr ⟨files.length, files, by simp [search_drive_files, hs, ho]⟩
      | error e => exact Or.inl ⟨e, by simp [search_drive_files, hs, ho]⟩

/-- C7 witness: an unauthenticated concrete call returns the error dict,
and a concrete collaborator exception is caught and surfaced. -/
theorem tool_soft_fail_spec_witness :
    truthyJson (none : Option Json) = false ∧
    list_drive_files none 20 (fun _ => Except.ok []) = ListResult.error NOT_AUTH_MSG ∧
    (truthyJson (some [("access_token", "t")]) = true ∧
     list_drive_files (some [("access_token", "t")]) 20 (fun _ => Except.error "boom") =
       ListResult.error "boom") :=
  ⟨by decide,
   tool_soft_fail_spec.1 20 (fun _ => Except.ok []) none (by decide),
   by decide,
   tool_soft_fail_spec.2.2.1 (some [("access_token", "t")]) 20
     (fun _ => Except.error "boom") "boom" (by decide) rfl⟩

/-! ### C9: query escaping in the Drive search -/

lemma escapeQuery_append (a b : String) :
    escapeQuery (a ++ b) = escapeQuery a ++ escapeQuery b := by
  apply String.ext
  simp [escapeQuery, String.data_append]

lemma escapeQuery_mk_cons (c : Char) (cs : List Char) :
    escapeQuery ⟨c :: cs⟩ =
      (if c == squote then "\\" ++ String.singleton squote else String.singleton c) ++
        escapeQuery ⟨cs⟩ := by
  apply String.ext
  simp [escapeQuery, String.data_append]

lemma singleton_append_mk (c : Char) (cs : List Char) :
    String.singleton c ++ (⟨cs⟩ : String) = ⟨c :: cs⟩ := by
  apply String.ext
  simp [String.data_append, String.singleton]

lemma escapeQuery_no_quote (q : String) (h : ∀ c ∈ q.data, c ≠ squote) :
    escapeQuery q = q := by
  obtain ⟨l⟩ := q
  induction l with
  | nil =>
    apply String.ext
    simp [escapeQuery]
  | cons c cs ih =>
    have hc : (c == squote) = false := by
      simpa using h c (List.mem_cons_self _ _)
    rw [escapeQuery_mk_cons, hc]
    rw [ih (fun x hx => h x (List.mem_cons_of_mem _ hx))]
    exact singleton_append_mk c cs

/-- C9: the search tool delegates the Drive query
`name contains` followed by the escaped query wrapped in single quotes,
in which exactly the single-quote characters
of the original query are replaced by backslash followed by single quote
(escaping distributes over concatenation, maps a lone single quote to
the backslash-escaped quote, and leaves quote-free strings unchanged),
while the success result echoes the original, unescaped query. -/
theorem search_escape_spec :
    (∀ q : String, driveNameQuery q =
      "name contains " ++ (String.singleton squote ++
        (escapeQuery q ++ String.singleton squote))) ∧
    (∀ a b : String, escapeQuery (a ++ b) = escapeQuery a ++ escapeQuery b) ∧
    (escapeQuery (String.singleton squote) = "\\" ++ String.singleton squote) ∧
    (∀ q : String, (∀ c ∈ q.data, c ≠ squote) → escapeQuery q = q) ∧
    (∀ (store : Option Json) (q : String) (m : Int)
        (drive : String → Int → DriveOutcome) (files : List String),
      truthyJson store = true →
      drive (driveNameQuery q) (min m 100) = Except.ok files →
      search_drive_files store q m drive = SearchResult.success q files.length files) := by
  refine ⟨?_, escapeQuery_append, by decide, escapeQuery_no_quote, ?_⟩
  · intro q
    simp [driveNameQuery, String.append_assoc]
  · intro store q m drive files hs ho
    simp [search_drive_files, hs, ho]

/-- C9 witness: a concrete query with one single quote is delegated in
escaped form while the success result echoes it unescaped. -/
theorem search_escape_spec_witness :
    escapeQuery ⟨['a', squote, 'b']⟩ = ⟨['a', '\\', squote, 'b']⟩ ∧
    (truthyJson (some [("access_token", "t")]) = true ∧
     search_drive_files (some [("access_token", "t")]) ⟨['a', squote, 'b']⟩ 10
        (fun _ _ => Except.ok ["f"]) =
       SearchResult.success ⟨['a', squote, 'b']⟩ 1 ["f"]) :=
  ⟨by decide, by decide,
   search_escape_spec.2.2.2.2 (some [("access_token", "t")]) ⟨['a', squote, 'b']⟩ 10
     (fun _ _ => Except.ok ["f"]) ["f"] (by decide) rfl⟩

end GDriveMCP
